import Mathlib

/-!
Verification of the bonus/economy subsystem of the `fuck_work_bot` Telegram
bot (`src/bot.py`).  The definitions below are a shallow embedding of the
Python source: pure helpers become Lean functions, the mutable global
dictionaries (`balances`, `bonus_claims`, `riddle_state`) become an explicit
`BotState` record threaded through the handlers, and the handlers
(`daily_bonus`, `check_riddle_answer`, `midnight_bonus`, `reset_bonus`,
`slots`) become state-transition functions returning the new state together
with a symbolic description of the reply they send.

Modelling conventions:
* `random.Random(seed).shuffle` is abstracted as an explicit parameter
  `shuffle : Int → List Riddle → List Riddle`; the source seeds it
  deterministically with `int(YYYYMMDD) + level`, which is exactly the seed
  passed to the parameter here.  All theorems about riddle selection hold
  for every such function, which is what the determinism claims require.
* `datetime.now().strftime("%Y-%m-%d")` and `int(...strftime("%Y%m%d"))`
  are passed in as the `today : String` and `dateNum : Int` arguments.
* Python `//` and `%` on possibly-negative integers are floor division and
  floor remainder, i.e. `Int.fdiv` and (for positive divisors) `Int.emod`.
* `str.lower`, `str.strip`, `re` word characters and the `\x5cb` word
  boundary are modelled character-by-character for the alphabets the bot
  actually uses (ASCII and the Cyrillic block U+0400..U+04FF plus Ґ/ґ).
-/

/-- Python `\x5cw` word-character test, restricted to the alphabets occurring in
the riddle bank: ASCII letters, digits, underscore, and the Cyrillic block
U+0400..U+04FF (which contains і, ї, є and all Ukrainian letters; Ґ/ґ are
U+0490/U+0491, also inside the block). -/
def isWordChar (c : Char) : Bool :=
  (97 ≤ c.toNat && c.toNat ≤ 122) || (65 ≤ c.toNat && c.toNat ≤ 90) ||
  (48 ≤ c.toNat && c.toNat ≤ 57) || c.toNat == 95 ||
  (1024 ≤ c.toNat && c.toNat ≤ 1279)

/-- Python `str.lower` on a single character, for ASCII and the Ukrainian
Cyrillic range (А..Я map by +32, Ѐ..Џ — which includes Є, І, Ї — map by +80,
and Ґ maps to ґ). -/
def lowerChar (c : Char) : Char :=
  if 65 ≤ c.toNat && c.toNat ≤ 90 then Char.ofNat (c.toNat + 32)
  else if 1040 ≤ c.toNat && c.toNat ≤ 1071 then Char.ofNat (c.toNat + 32)
  else if 1024 ≤ c.toNat && c.toNat ≤ 1039 then Char.ofNat (c.toNat + 80)
  else if c.toNat == 1168 then Char.ofNat 1169
  else c

/-- The whitespace characters stripped by Python `str.strip()`. -/
def isSpaceChar (c : Char) : Bool :=
  c == ' ' || c == '\t' || c == '\n' || c == '\r' || c.toNat == 11 || c.toNat == 12

/-- Python `str.strip()`: drop leading and trailing whitespace. -/
def stripList (l : List Char) : List Char :=
  ((l.dropWhile isSpaceChar).reverse.dropWhile isSpaceChar).reverse

/-- `s.lower().strip()` as a character list: the normalisation applied by
`check_riddle_answer` (src/bot.py lines 676 and 685) to both the incoming
message text and each accepted answer. -/
def cleanAns (s : String) : List Char :=
  stripList (s.data.map lowerChar)

/-- Whether the character at index `i` of `t` is a word character
(out-of-range counts as a non-word character, like the edges of the string
in Python's `re`). -/
def wordAtPos (t : List Char) (i : Nat) : Bool :=
  match t.get? i with
  | some c => isWordChar c
  | none => false

/-- Python `re` word-boundary test `\x5cb` at position `i` of `t`
(`0 ≤ i ≤ t.length`): the wordness of the character before `i` differs from
the wordness of the character at `i`. -/
def boundaryAt (t : List Char) (i : Nat) : Bool :=
  (decide (i ≠ 0) && wordAtPos t (i - 1)) != wordAtPos t i

/-- A match of the pattern `\x5cb` ++ `re.escape(a)` ++ `\x5cb` starting at
position `i` of `t`: the literal characters of `a` occur at `i` and both
ends sit on a word boundary. -/
def matchAt (a t : List Char) (i : Nat) : Bool :=
  a.isPrefixOf (t.drop i) && boundaryAt t i && boundaryAt t (i + a.length)

/-- `re.search(r"\x5cb" + re.escape(a) + r"\x5cb", t)` succeeds: some start
position in `t` matches (src/bot.py lines 687-688). -/
def searchWB (a t : List Char) : Bool :=
  (List.range (t.length + 1)).any (fun i => matchAt a t i)

/-- The answer test of `check_riddle_answer` (src/bot.py lines 676-690):
lower-case and strip the message, then search for any accepted answer
(also lower-cased and stripped) surrounded by word boundaries. -/
def checkAnswer (answers : List String) (msg : String) : Bool :=
  answers.any (fun ans => searchWB (cleanAns ans) (cleanAns msg))

/-- Modelled from the spec: "the candidate answer must appear in the message
as a delimited token, not as a substring of a longer token".  An occurrence
of `a` at position `i` of `t` is a whole delimited token when the character
before it (if any) is a non-word character and the character after it (if
any) is a non-word character. -/
def tokenAt (a t : List Char) (i : Nat) : Bool :=
  a.isPrefixOf (t.drop i) && (decide (i = 0) || !wordAtPos t (i - 1)) &&
  !wordAtPos t (i + a.length)

/-- Modelled from the spec: `a` occurs somewhere in `t` as a whole delimited
token. -/
def occursAsWholeToken (a t : List Char) : Bool :=
  (List.range (t.length + 1)).any (fun i => tokenAt a t i)

/-- First character of a character list (arbitrary default on `[]`). -/
def headOr (l : List Char) : Char :=
  match l with
  | [] => 'x'
  | c :: _ => c

/-- Last character of a character list (arbitrary default on `[]`). -/
def lastD (l : List Char) : Char :=
  match l with
  | [] => 'x'
  | [c] => c
  | _ :: c :: rest => lastD (c :: rest)

/-- A nonempty character list whose first and last characters are word
characters: the shape of every accepted answer for which the word-boundary
search coincides with whole-token occurrence. -/
def wordEdged (a : List Char) : Bool :=
  !a.isEmpty && isWordChar (headOr a) && isWordChar (lastD a)

/-- Python `int(s)` on a decimal string: digits possibly separated by single
underscores, accumulating the value. -/
def pyDigits (acc : Nat) : List Char → Option Nat
  | [] => some acc
  | '_' :: c :: rest =>
      if 48 ≤ c.toNat && c.toNat ≤ 57 then pyDigits (acc * 10 + (c.toNat - 48)) rest
      else none
  | c :: rest =>
      if 48 ≤ c.toNat && c.toNat ≤ 57 then pyDigits (acc * 10 + (c.toNat - 48)) rest
      else none

/-- Python `int(s)` digit block: must start with a digit. -/
def pyNat : List Char → Option Nat
  | c :: rest =>
      if 48 ≤ c.toNat && c.toNat ≤ 57 then pyDigits (c.toNat - 48) rest
      else none
  | [] => none

/-- Python `int(s)` for decimal strings: strip whitespace, optional sign,
digits.  Returns `none` where Python raises `ValueError`. -/
def pyInt (s : String) : Option Int :=
  match stripList s.data with
  | '+' :: rest => (pyNat rest).map (fun n => (n : Int))
  | '-' :: rest => (pyNat rest).map (fun n => -(n : Int))
  | l => (pyNat l).map (fun n => (n : Int))

/-- One entry of the riddle bank: a question and its accepted answers
(the `{"q": ..., "a": [...]}` records of src/bot.py). -/
structure Riddle where
  q : String
  a : List String
deriving DecidableEq

/-- Level-1 entries of the static `RIDDLES_BY_LEVEL` table (src/bot.py). -/
def riddlesLevel1 : List Riddle :=
  [{ q := "Скільки місяців у році мають 28 днів?", a := ["усі", "12", "всі"] },
    { q := "Яка планета третя від Сонця?", a := ["земля", "earth"] },
    { q := "Скільки буде 6 * 7?", a := ["42"] },
    { q := "З чого роблять родзинки?", a := ["виноград", "з винограду"] },
    { q := "Яка геометрична фігура не має кутів?", a := ["коло", "овал", "круг"] },
    { q := "Що йде, не рухаючись з місця?", a := ["час", "годинник"] },
    { q := "Скільки ніг у павука?", a := ["8"] },
    { q := "Який колір вийде, якщо змішати червоний і жовтий?", a := ["оранжевий", "помаранчевий"] },
    { q := "Скільки гравців у футбольній команді на полі?", a := ["11"] },
    { q := "Що більше: слон чи кит?", a := ["кит"] },
    { q := "Скільки кольорів у світлофорі?", a := ["3", "три"] },
    { q := "Що збирають бджоли?", a := ["нектар", "мед", "пилок"] },
    { q := "Як звати подружку Міккі Мауса?", a := ["мінні", "minnie"] },
    { q := "Скільки коліс у велосипеда?", a := ["2", "два"] },
    { q := "Що протилежне до \x27день\x27?", a := ["ніч"] },
    { q := "Як називається замерзла вода?", a := ["лід", "крига"] },
    { q := "Скільки пальців на двох руках?", a := ["10", "десять"] },
    { q := "Хто дає нам молоко?", a := ["корова", "коза"] },
    { q := "Якого кольору сонце?", a := ["жовте", "жовтий"] },
    { q := "Скільки літер у слові \x27Яблуко\x27?", a := ["6", "шість"] }]

/-- Level-2 entries of the static `RIDDLES_BY_LEVEL` table (src/bot.py). -/
def riddlesLevel2 : List Riddle :=
  [{ q := "На якому материку знаходиться Єгипет?", a := ["африка"] },
    { q := "Хто співає пісню \x27Show Must Go On\x27?", a := ["queen", "квін", "фредді", "mercury"] },
    { q := "Скільки кілець на олімпійському прапорі?", a := ["5", "п\x27ять"] },
    { q := "Який газ ми видихаємо?", a := ["вуглекислий"] },
    { q := "Яка найбільша тварина на Землі?", a := ["синій кит", "кит", "blue whale"] },
    { q := "Яка столиця Польщі?", a := ["варшава", "warsaw"] },
    { q := "Хто написав книгу \x27Гаррі Поттер\x27?", a := ["роулінг", "rowling"] },
    { q := "З чого виготовляють папір?", a := ["дерево", "деревина", "з дерева"] },
    { q := "В якому місті знаходиться Ейфелева вежа?", a := ["париж", "paris"] },
    { q := "Як називається японське мистецтво складання паперу?", a := ["орігамі"] },
    { q := "Яка столиця Іспанії?", a := ["мадрид", "madrid"] },
    { q := "Хто співає \x27Thriller\x27?", a := ["майкл джексон", "jackson", "джексон"] },
    { q := "Яка найшвидша тварина на суші?", a := ["гепард", "cheetah"] },
    { q := "Який океан найбільший?", a := ["тихий", "pacific"] },
    { q := "В якій країні знаходяться піраміди?", a := ["єгипет", "egypt"] },
    { q := "Яка столиця Китаю?", a := ["пекін", "beijing"] },
    { q := "Яка валюта у Великобританії?", a := ["фунт", "pound"] },
    { q := "Скільки гравців у баскетбольній команді на полі?", a := ["5", "п\x27ять"] },
    { q := "У якої ягоди насіння ззовні?", a := ["полуниця", "суниця"] },
    { q := "Хто такий Немо з мультика?", a := ["риба", "рибка", "клоун"] }]

/-- Level-3 entries of the static `RIDDLES_BY_LEVEL` table (src/bot.py). -/
def riddlesLevel3 : List Riddle :=
  [{ q := "В якому році сталася Чорнобильська катастрофа?", a := ["1986"] },
    { q := "Хто написав повість \x27Тіні забутих предків\x27?", a := ["коцюбинський"] },
    { q := "Яка змія вважається найшвидшою у світі?", a := ["чорна мамба", "мамба"] },
    { q := "Яка столиця Туреччини?", a := ["анкара", "ankara"] },
    { q := "Який хімічний елемент має символ Ag?", a := ["срібло", "silver"] },
    { q := "В якому році затонув Титанік?", a := ["1912"] },
    { q := "Яка найвища вершина Карпат?", a := ["говерла"] },
    { q := "Хто відкрив Америку?", a := ["колумб", "columbus"] },
    { q := "Скільки зубів у дорослої людини?", a := ["32"] },
    { q := "Хто намалював Мону Лізу?", a := ["да вінчі", "леонардо"] },
    { q := "Хто винайшов телефон?", a := ["белл", "bell"] },
    { q := "Наука про зірки це...?", a := ["астрономія"] },
    { q := "Яка столиця Канади?", a := ["оттава", "ottawa"] },
    { q := "Яка планета має кільця?", a := ["сатурн", "saturn"] },
    { q := "Який символ у золота?", a := ["au"] },
    { q := "Хто написав про Шерлока Холмса?", a := ["дойл", "doyle"] },
    { q := "Перша жінка в космосі?", a := ["терешкова"] },
    { q := "В якому році закінчилась Друга світова?", a := ["1945"] },
    { q := "Найтвердіший природний матеріал?", a := ["алмаз", "діамант"] },
    { q := "Швидкість звуку в повітрі (м/с, приблизно)?", a := ["340", "343", "330"] }]

/-- Level-4 entries of the static `RIDDLES_BY_LEVEL` table (src/bot.py). -/
def riddlesLevel4 : List Riddle :=
  [{ q := "Хто винайшов динаміт?", a := ["нобель", "nobel"] },
    { q := "Скільки пар хромосом у здорової людини?", a := ["23"] },
    { q := "Яка війна вважається найкоротшою в історії (38 хв)?", a := ["англо-занзібарська", "занзібарська"] },
    { q := "Хто написав картину \x27Дівчина з перловою сережкою\x27?", a := ["вермер", "vermeer"] },
    { q := "Температура абсолютного нуля за Цельсієм?", a := ["-273", "-273.15"] },
    { q := "Як називається страх замкнутого простору?", a := ["клаустрофобія"] },
    { q := "Яка річка найдовша в Європі?", a := ["волга"] },
    { q := "Хто написав \x27Портрет Доріана Грея\x27?", a := ["уайльд", "wilde"] },
    { q := "Яка країна подарувала США Статую Свободи?", a := ["франція"] },
    { q := "Який елемент найпоширеніший у Всесвіті?", a := ["водень", "h"] },
    { q := "Хто написав \x27Старий і море\x27?", a := ["хемінгуей", "hemingway"] },
    { q := "Яка столиця Австралії?", a := ["канберра"] },
    { q := "Енергетична станція клітини?", a := ["мітохондрія"] },
    { q := "Хто написав \x27Пори року\x27 (музика)?", a := ["вівальді", "vivaldi"] },
    { q := "В якому році впав Берлінський мур?", a := ["1989"] },
    { q := "Найменша кістка в тілі людини?", a := ["стремінце", "у вусі", "stapes"] },
    { q := "Хто написав \x271984\x27?", a := ["орвелл", "orwell"] },
    { q := "Елемент, що рідкий при кімнатній t (неметал)?", a := ["бром", "bromine"] },
    { q := "Хто намалював \x27Герніку\x27?", a := ["пікассо", "picasso"] },
    { q := "Яка місія Аполлон висадилась на Місяць?", a := ["11", "аполлон 11"] }]

/-- Level-5 entries of the static `RIDDLES_BY_LEVEL` table (src/bot.py). -/
def riddlesLevel5 : List Riddle :=
  [{ q := "Скільки часу світло йде від Сонця до Землі (приблизно)?", a := ["8 хв", "8 хвилин", "500 с"] },
    { q := "Яка країна має найбільшу кількість озер?", a := ["канада", "canada"] },
    { q := "Який єдиний метал є рідким при кімнатній температурі?", a := ["ртуть", "mercury"] },
    { q := "Як звали давньогрецьку богиню мудрості?", a := ["афіна", "athena"] },
    { q := "Хто був вчителем Олександра Македонського?", a := ["арістотель", "aristotle"] },
    { q := "Як звали коня Дон Кіхота?", a := ["росінант", "rossinante"] },
    { q := "Яка країна першою надала жінкам право голосу?", a := ["нова зеландія"] },
    { q := "Хто написав \x27Майстер і Маргарита\x27?", a := ["булгаков"] },
    { q := "Як звали першу собаку-космонавта?", a := ["лайка"] },
    { q := "У якому році винайшли пеніцилін?", a := ["1928"] },
    { q := "Яка столиця Казахстану?", a := ["астана", "astana"] },
    { q := "Хто написав \x27Злочин і кара\x27?", a := ["достоєвський"] },
    { q := "Скільки клавіш на стандартному піаніно?", a := ["88"] },
    { q := "Що означає Carpe Diem?", a := ["лови момент", "лови день"] },
    { q := "Хто відкрив полоній?", a := ["кюрі", "curie", "марія кюрі"] },
    { q := "Яка висота Евересту (м)?", a := ["8848", "8849"] },
    { q := "Найглибше озеро у світі?", a := ["байкал"] },
    { q := "Хто написав \x27Державець\x27 (The Prince)?", a := ["макіавеллі", "machiavelli"] },
    { q := "В якому році почалася Велика французька революція?", a := ["1789"] },
    { q := "Яка валюта у Швейцарії?", a := ["франк", "franc", "chf"] }]


/-- The static riddle catalogue `RIDDLES_BY_LEVEL` (src/bot.py lines
223-334), as a total function on the level (`dict.get(level, [])`). -/
def RIDDLES_BY_LEVEL (level : Int) : List Riddle :=
  if level = 1 then riddlesLevel1
  else if level = 2 then riddlesLevel2
  else if level = 3 then riddlesLevel3
  else if level = 4 then riddlesLevel4
  else if level = 5 then riddlesLevel5
  else []

/-- `get_riddles_for_level` (src/bot.py lines 172-179): combine the
AI-generated pool (a parameter here, since it is refreshed by an external
job) with the static bank, preferring generated riddles when present. -/
def get_riddles_for_level (generated : Int → List Riddle) (level : Int) :
    List Riddle :=
  if (generated level).isEmpty then RIDDLES_BY_LEVEL level
  else generated level ++ RIDDLES_BY_LEVEL level

/-- `LEVEL_REWARDS.get(level, 50)` (src/bot.py lines 336-342). -/
def LEVEL_REWARDS (level : Int) : Int :=
  if level = 1 then 20
  else if level = 2 then 35
  else if level = 3 then 50
  else if level = 4 then 75
  else if level = 5 then 100
  else 50

/-- `STARTING_BALANCE` (src/bot.py line 403). -/
def STARTING_BALANCE : Int := 100

/-- `DEFAULT_BET` (src/bot.py line 404). -/
def DEFAULT_BET : Int := 10

/-- One record of the `bonus_claims` mapping:
`{"date": "YYYY-MM-DD", "count": n}` (src/bot.py line 70). -/
structure BonusRec where
  date : String
  count : Nat
deriving DecidableEq

/-- One record of the `riddle_state` mapping: the selected riddle together
with its `level` metadata (`riddle_with_meta`, src/bot.py line 647). -/
structure ActiveRiddle where
  q : String
  a : List String
  level : Int
deriving DecidableEq

/-- The three persistent dictionaries the bonus/economy subsystem mutates:
`balances` (user id ↦ coins and display name), `bonus_claims`
(user id ↦ date and count) and `riddle_state` (user id ↦ active riddle),
each as an association list with the insertion-ordered update semantics of
a Python dict. -/
structure BotState where
  balances : List (String × Int × String)
  bonusClaims : List (String × BonusRec)
  riddleState : List (String × ActiveRiddle)
deriving DecidableEq

/-- Dictionary lookup `d.get(k)` on an association list. -/
def findA {β : Type} (k : String) : List (String × β) → Option β
  | [] => none
  | (k', v) :: rest => if k' = k then some v else findA k rest

/-- Dictionary update `d[k] = v`: replace the first binding of `k`, or
append a new binding. -/
def upsertA {β : Type} (k : String) (v : β) : List (String × β) → List (String × β)
  | [] => [(k, v)]
  | (k', v') :: rest => if k' = k then (k, v) :: rest else (k', v') :: upsertA k v rest

/-- Dictionary deletion `del d[k]` (a no-op when `k` is absent, matching the
guarded deletes in the source). -/
def eraseA {β : Type} (k : String) : List (String × β) → List (String × β)
  | [] => []
  | (k', v') :: rest => if k' = k then rest else (k', v') :: eraseA k rest

/-- `get_balance` (src/bot.py lines 407-411): return the balance, creating
the entry with `STARTING_BALANCE` coins and an empty name on first access. -/
def get_balance (st : BotState) (uid : String) : BotState × Int :=
  match findA uid st.balances with
  | some e => (st, e.1)
  | none =>
      ({ st with balances := upsertA uid (STARTING_BALANCE, "") st.balances },
       STARTING_BALANCE)

/-- `update_balance` (src/bot.py lines 414-421): create the entry if absent
(with `STARTING_BALANCE` coins), add `amount` to the coins, and overwrite
the display name when a nonempty one is given. -/
def update_balance (st : BotState) (uid : String) (amount : Int) (name : String) :
    BotState :=
  match findA uid st.balances with
  | none => { st with balances := upsertA uid (STARTING_BALANCE + amount, name) st.balances }
  | some e =>
      { st with balances :=
          upsertA uid (e.1 + amount, if name = "" then e.2 else name) st.balances }

/-- The coins `get_balance` would return, without the lazy insertion:
the stored balance, or `STARTING_BALANCE` for an unknown user. -/
def getBalanceVal (st : BotState) (uid : String) : Int :=
  match findA uid st.balances with
  | some e => e.1
  | none => STARTING_BALANCE

/-- The riddle level derived from a same-day claim count `c`:
`(count - 1) // 5 + 1` with Python floor division (src/bot.py line 613). -/
def levelFor (c : Nat) : Int :=
  ((c : Int) - 1).fdiv 5 + 1

/-- The attempts-today counter of the spec's `BonusClaim` data model: the
stored count when the stored date is today, otherwise 0 (the record is
"reset implicitly when `last_claim_date` differs from the current date"). -/
def attemptsToday (st : BotState) (uid today : String) : Nat :=
  match findA uid st.bonusClaims with
  | some r => if r.date = today then r.count else 0
  | none => 0

/-- The riddle difficulty level a user currently faces: derived from the
same-day claim count, level 1 when there is no same-day record. -/
def levelOf (st : BotState) (uid today : String) : Int :=
  match findA uid st.bonusClaims with
  | some r => if r.date = today then levelFor r.count else 1
  | none => 1

/-- The riddle selection of `daily_bonus` (src/bot.py lines 624-645): if the
pool for the level is empty, a fixed placeholder; otherwise shuffle the pool
with the date+level seed and index by `(count - 1) % 5`, reduced modulo the
pool size when out of range. -/
def select_riddle (shuffle : Int → List Riddle → List Riddle)
    (generated : Int → List Riddle) (level : Int) (count : Nat) (dateNum : Int) :
    Riddle :=
  let pool := get_riddles_for_level generated level
  if pool.isEmpty then { q := "Питання закінчились :(", a := ["pass"] }
  else
    let dr := shuffle (dateNum + level) pool
    let idx0 : Int := ((count : Int) - 1).emod 5
    let idx : Int := if (dr.length : Int) ≤ idx0 then idx0.emod (dr.length : Int) else idx0
    dr.getD idx.toNat { q := "", a := [] }

/-- The reply sent by `daily_bonus`, reduced to the data it reports. -/
inductive BonusReply where
  | pending (q : String) (level reward : Int)
  | free (amount newBalance : Int)
  | exhausted
  | riddleIssued (q : String) (level : Int) (count : Nat) (reward : Int)
deriving DecidableEq

/-- `daily_bonus` (src/bot.py lines 556-663).  With an active riddle, re-show
it unchanged.  Otherwise, on the first claim of the day grant the flat 50
bonus and record `{date: today, count: 1}`; on a repeat claim derive the
level from the count, answer "exhausted" above level 5, and otherwise store
the deterministically selected riddle as the active riddle. -/
def daily_bonus (shuffle : Int → List Riddle → List Riddle)
    (generated : Int → List Riddle) (st : BotState)
    (uid userName today : String) (dateNum : Int) : BotState × BonusReply :=
  match findA uid st.riddleState with
  | some r => (st, .pending r.q r.level (LEVEL_REWARDS r.level))
  | none =>
    let bd := (findA uid st.bonusClaims).getD ⟨"", 0⟩
    if bd.date ≠ today then
      let st1 := update_balance st uid 50 userName
      let st2 := { st1 with bonusClaims := upsertA uid ⟨today, 1⟩ st1.bonusClaims }
      (st2, .free 50 (getBalanceVal st1 uid))
    else
      let level := levelFor bd.count
      if 5 < level then (st, .exhausted)
      else
        let riddle := select_riddle shuffle generated level bd.count dateNum
        let ar : ActiveRiddle := ⟨riddle.q, riddle.a, level⟩
        let st1 := { st with riddleState := upsertA uid ar st.riddleState }
        (st1, .riddleIssued riddle.q level bd.count (LEVEL_REWARDS level))

/-- The reply sent by `check_riddle_answer` on a correct answer. -/
structure AnswerReply where
  reward : Int
  newBalance : Int
  nextLevel : Int
  allDone : Bool
deriving DecidableEq

/-- `check_riddle_answer` (src/bot.py lines 666-744).  Returns the new state
and `some` reply when the message was consumed as a correct answer, `none`
(with the state unchanged) otherwise.  On a correct answer: credit the
level's reward, bump the same-day claim count (or start a fresh record for
today), delete the active riddle, and report the next level. -/
def check_riddle_answer (st : BotState) (uid userName today msgText : String) :
    BotState × Option AnswerReply :=
  match findA uid st.riddleState with
  | none => (st, none)
  | some r =>
    if checkAnswer r.a msgText then
      let bonus := LEVEL_REWARDS r.level
      let st1 := update_balance st uid bonus userName
      let bd := (findA uid st1.bonusClaims).getD ⟨today, 0⟩
      let bd' : BonusRec := if bd.date = today then ⟨bd.date, bd.count + 1⟩ else ⟨today, 1⟩
      let st2 := { st1 with bonusClaims := upsertA uid bd' st1.bonusClaims }
      let st3 := { st2 with riddleState := eraseA uid st2.riddleState }
      let nextLevel := levelFor bd'.count
      (st3, some { reward := bonus, newBalance := getBalanceVal st1 uid,
                   nextLevel := nextLevel, allDone := decide (5 < nextLevel) })
    else (st, none)

/-- `midnight_bonus` (src/bot.py lines 747-773): when any balances exist,
add the flat 100-coin bonus to every balance, then notify the active chats;
each send is individually guarded, so the chats actually notified are
exactly those whose send succeeds (`sendOk`). -/
def midnight_bonus (st : BotState) (activeChats : List Int) (sendOk : Int → Bool) :
    BotState × List Int :=
  if st.balances.isEmpty then (st, [])
  else
    ({ st with balances := st.balances.map (fun p => (p.1, p.2.1 + 100, p.2.2)) },
     activeChats.filter sendOk)

/-- `reset_bonus` (src/bot.py lines 963-985): delete the user's bonus-claim
record and active riddle. -/
def reset_bonus (st : BotState) (uid : String) : BotState :=
  { st with bonusClaims := eraseA uid st.bonusClaims,
            riddleState := eraseA uid st.riddleState }

/-- The slot symbols (`SLOT_SYMBOLS`, src/bot.py line 389), named after the
emoji. -/
inductive SlotSym where
  | cherry | lemon | orange | grape | bell | star | seven | diamond
deriving DecidableEq, Fintype

/-- `SLOT_PAYOUTS` (src/bot.py lines 392-401): the exact-triple multiplier
table as a partial lookup. -/
def SLOT_PAYOUTS : SlotSym × SlotSym × SlotSym → Option Int
  | (.diamond, .diamond, .diamond) => some 100
  | (.seven, .seven, .seven) => some 50
  | (.star, .star, .star) => some 25
  | (.bell, .bell, .bell) => some 15
  | (.grape, .grape, .grape) => some 10
  | (.orange, .orange, .orange) => some 8
  | (.lemon, .lemon, .lemon) => some 5
  | (.cherry, .cherry, .cherry) => some 3
  | _ => none

/-- The multiplier each symbol pays for an exact triple. -/
def payoutMult : SlotSym → Int
  | .cherry => 3
  | .lemon => 5
  | .orange => 8
  | .grape => 10
  | .bell => 15
  | .star => 25
  | .seven => 50
  | .diamond => 100

/-- `calculate_winnings` (src/bot.py lines 429-439): table payout for an
exact triple, the bet back for any two matching symbols, zero otherwise. -/
def calculate_winnings (result : SlotSym × SlotSym × SlotSym) (bet : Int) : Int :=
  match SLOT_PAYOUTS result with
  | some m => bet * m
  | none =>
      if result.1 = result.2.1 ∨ result.2.1 = result.2.2 ∨ result.1 = result.2.2 then bet
      else 0

/-- The reply sent by `slots`, reduced to the data it reports. -/
inductive SlotsOutcome where
  | errNotNumber
  | errMinBet
  | insufficient (balance bet : Int)
  | played (result : SlotSym × SlotSym × SlotSym) (bet winnings newBalance : Int)
deriving DecidableEq

/-- The body of `slots` after bet parsing (src/bot.py lines 460-499): check
the balance (creating it lazily), refuse when it cannot cover the bet, and
otherwise apply `winnings - bet` to the balance in one update. -/
def slots_core (result : SlotSym × SlotSym × SlotSym) (st : BotState)
    (uid userName : String) (bet : Int) : BotState × SlotsOutcome :=
  let p := get_balance st uid
  if p.2 < bet then (p.1, .insufficient p.2 bet)
  else
    let winnings := calculate_winnings result bet
    let st2 := update_balance p.1 uid (winnings - bet) userName
    (st2, .played result bet winnings (getBalanceVal st2 uid))

/-- `slots` (src/bot.py lines 442-499): parse the optional bet argument with
`int(...)`, rejecting non-numeric input and bets below 1 before any state is
touched, then run the spin body.  The spin result is a parameter standing
for the weighted random draw. -/
def slots (result : SlotSym × SlotSym × SlotSym) (st : BotState) (uid userName : String)
    (arg : Option String) : BotState × SlotsOutcome :=
  match arg with
  | none => slots_core result st uid userName DEFAULT_BET
  | some s =>
    match pyInt s with
    | none => (st, .errNotNumber)
    | some b => if b < 1 then (st, .errMinBet) else slots_core result st uid userName b

/-! Association-list lemmas: the dictionary operations interact in the
expected way. -/

theorem findA_upsertA_self {β : Type} (k : String) (v : β) (l : List (String × β)) :
    findA k (upsertA k v l) = some v := by
  induction l with
  | nil => simp [findA, upsertA]
  | cons p rest ih =>
    by_cases h : p.1 = k
    · simp [findA, upsertA, h]
    · simp [findA, upsertA, h, ih]

theorem findA_upsertA_ne {β : Type} (k k' : String) (v : β) (l : List (String × β))
    (h : k' ≠ k) : findA k (upsertA k' v l) = findA k l := by
  induction l with
  | nil => simp [findA, upsertA, h]
  | cons p rest ih =>
    by_cases hp : p.1 = k'
    · simp [findA, upsertA, hp, h]
    · simp only [upsertA, if_neg hp, findA]
      by_cases hk : p.1 = k
      · simp [hk]
      · simp [hk, ih]

theorem findA_eq_none_of_all_ne {β : Type} (k : String) (l : List (String × β))
    (h : ∀ p ∈ l, p.1 ≠ k) : findA k l = none := by
  induction l with
  | nil => rfl
  | cons p rest ih =>
    simp only [findA, if_neg (h p (by simp))]
    exact ih (fun q hq => h q (by simp [hq]))

theorem findA_eraseA_self {β : Type} (k : String) (l : List (String × β))
    (hnd : l.Pairwise (fun p p' => p.1 ≠ p'.1)) : findA k (eraseA k l) = none := by
  induction l with
  | nil => rfl
  | cons p rest ih =>
    rcases List.pairwise_cons.mp hnd with ⟨hhead, htail⟩
    by_cases hp : p.1 = k
    · subst hp
      simp only [eraseA, if_pos rfl]
      exact findA_eq_none_of_all_ne _ _ (fun q hq => (hhead q hq).symm)
    · simp [eraseA, hp, findA, ih htail]

theorem findA_eraseA_ne {β : Type} (k k' : String) (l : List (String × β))
    (h : k' ≠ k) : findA k (eraseA k' l) = findA k l := by
  induction l with
  | nil => rfl
  | cons p rest ih =>
    by_cases hp : p.1 = k'
    · have hk : ¬p.1 = k := by rw [hp]; exact h
      simp [eraseA, hp, findA, hk, h]
    · simp only [eraseA, if_neg hp, findA]
      by_cases hk : p.1 = k
      · simp [hk]
      · simp [hk, ih]

/-! Small facts about the balance operations and the level formula. -/

theorem update_balance_bonusClaims (st : BotState) (uid : String) (amount : Int)
    (name : String) : (update_balance st uid amount name).bonusClaims = st.bonusClaims := by
  unfold update_balance
  cases findA uid st.balances <;> rfl

theorem update_balance_riddleState (st : BotState) (uid : String) (amount : Int)
    (name : String) : (update_balance st uid amount name).riddleState = st.riddleState := by
  unfold update_balance
  cases findA uid st.balances <;> rfl

theorem getBalanceVal_update_self (st : BotState) (uid : String) (amount : Int)
    (name : String) :
    getBalanceVal (update_balance st uid amount name) uid = getBalanceVal st uid + amount := by
  unfold update_balance getBalanceVal
  cases h : findA uid st.balances <;> simp [h, findA_upsertA_self]

theorem getBalanceVal_update_ne (st : BotState) (uid uid' : String) (amount : Int)
    (name : String) (h : uid' ≠ uid) :
    getBalanceVal (update_balance st uid' amount name) uid = getBalanceVal st uid := by
  unfold update_balance getBalanceVal
  cases h' : findA uid' st.balances <;> simp [h', findA_upsertA_ne _ _ _ _ h]

theorem levelFor_succ (k : Nat) : levelFor (k + 1) = ((k / 5 : Nat) : Int) + 1 := by
  unfold levelFor
  have h1 : ((k + 1 : Nat) : Int) - 1 = (k : Int) := by push_cast; ring
  rw [h1, Int.fdiv_eq_ediv _ (by norm_num)]
  norm_cast

theorem levelFor_zero : levelFor 0 = 0 := by decide

theorem levelFor_one : levelFor 1 = 1 := by decide

theorem levelFor_nonneg (n : Nat) : 0 ≤ levelFor n := by
  cases n with
  | zero => simp [levelFor_zero]
  | succ k =>
    rw [levelFor_succ]
    positivity

theorem levelFor_mono {m n : Nat} (h : m ≤ n) : levelFor m ≤ levelFor n := by
  cases m with
  | zero =>
    rw [levelFor_zero]
    exact levelFor_nonneg n
  | succ j =>
    cases n with
    | zero => omega
    | succ k =>
      rw [levelFor_succ, levelFor_succ]
      have : j / 5 ≤ k / 5 := Nat.div_le_div_right (by omega)
      omega

theorem levelFor_le_five {n : Nat} (h : n ≤ 25) : levelFor n ≤ 5 := by
  cases n with
  | zero => rw [levelFor_zero]; omega
  | succ k =>
    rw [levelFor_succ]
    have : k / 5 ≤ 4 := by
      have : k / 5 ≤ 24 / 5 := Nat.div_le_div_right (by omega)
      omega
    omega

theorem levelFor_gt_five {n : Nat} (h : 26 ≤ n) : 5 < levelFor n := by
  rcases Nat.exists_eq_add_of_le h with ⟨m, rfl⟩
  rw [show 26 + m = (25 + m) + 1 by omega, levelFor_succ]
  have : 5 ≤ (25 + m) / 5 := Nat.le_div_iff_mul_le (by omega) |>.mpr (by omega)
  omega

/-! The word-boundary search coincides with whole-token occurrence for
answers whose edges are word characters. -/

theorem get?_drop (i : Nat) (l : List Char) (j : Nat) :
    (l.drop i).get? j = l.get? (i + j) := by
  induction i generalizing l with
  | zero => simp
  | succ n ih =>
    cases l with
    | nil => simp
    | cons c rest =>
      simp only [List.drop_succ_cons, ih rest]
      rw [show n + 1 + j = (n + j) + 1 by omega]
      rfl

theorem isPrefixOf_get? (a : List Char) : ∀ (l : List Char), a.isPrefixOf l = true →
    ∀ k, k < a.length → l.get? k = a.get? k := by
  induction a with
  | nil => intro l _ k hk; simp at hk
  | cons c a' ih =>
    intro l hpre k hk
    cases l with
    | nil => simp [List.isPrefixOf] at hpre
    | cons d l' =>
      simp only [List.isPrefixOf, Bool.and_eq_true, beq_iff_eq] at hpre
      obtain ⟨rfl, hrest⟩ := hpre
      cases k with
      | zero => rfl
      | succ k' => exact ih l' hrest k' (by simpa using hk)

theorem get?_lastD (l : List Char) (h : l ≠ []) :
    l.get? (l.length - 1) = some (lastD l) := by
  induction l with
  | nil => exact absurd rfl h
  | cons c tl ih =>
    cases tl with
    | nil => rfl
    | cons d tl' =>
      have h1 : (c :: d :: tl').length - 1 = (d :: tl').length := rfl
      have h2 : (d :: tl').length = ((d :: tl').length - 1) + 1 := by simp
      rw [h1, h2]
      simp only [List.get?_cons_succ]
      rw [ih (by simp)]
      rfl

theorem wordEdged_facts {a : List Char} (h : wordEdged a = true) :
    a ≠ [] ∧ isWordChar (headOr a) = true ∧ isWordChar (lastD a) = true := by
  unfold wordEdged at h
  simp only [Bool.and_eq_true, Bool.not_eq_true'] at h
  exact ⟨by cases a <;> simp_all, h.1.2, h.2⟩

theorem matchAt_eq_tokenAt (a t : List Char) (i : Nat) (h : wordEdged a = true) :
    matchAt a t i = tokenAt a t i := by
  obtain ⟨hne, hhead, hlast⟩ := wordEdged_facts h
  cases hpre : a.isPrefixOf (t.drop i) with
  | false => simp [matchAt, tokenAt, hpre]
  | true =>
    have hlen : 1 ≤ a.length := by
      cases a with
      | nil => exact absurd rfl hne
      | cons c tl => simp
    have hw0 : wordAtPos t i = true := by
      have h0 : (t.drop i).get? 0 = a.get? 0 := isPrefixOf_get? a _ hpre 0 (by omega)
      rw [get?_drop] at h0
      have hh : a.get? 0 = some (headOr a) := by
        cases a with
        | nil => exact absurd rfl hne
        | cons c tl => rfl
      unfold wordAtPos
      rw [show i + 0 = i by omega] at h0
      rw [h0, hh]
      exact hhead
    have hwlast : wordAtPos t (i + a.length - 1) = true := by
      have h0 : (t.drop i).get? (a.length - 1) = a.get? (a.length - 1) :=
        isPrefixOf_get? a _ hpre (a.length - 1) (by omega)
      rw [get?_drop] at h0
      rw [get?_lastD a hne] at h0
      unfold wordAtPos
      rw [show i + a.length - 1 = i + (a.length - 1) by omega]
      rw [h0]
      exact hlast
    have hnz : decide (i + a.length ≠ 0) = true := by
      simp only [decide_eq_true_eq]
      omega
    simp only [matchAt, tokenAt, hpre, Bool.true_and, boundaryAt, hw0, hnz, hwlast,
      Bool.true_and, Bool.and_true]
    cases i with
    | zero =>
      simp only [Nat.zero_add]
      cases hq : wordAtPos t a.length <;> simp [hq]
    | succ j =>
      have hj : decide (j + 1 ≠ 0) = true := by simp
      have hj0 : decide (j + 1 = 0) = false := by simp
      rw [hj, hj0]
      cases hp : wordAtPos t (j + 1 - 1) <;>
        cases hq : wordAtPos t (j + 1 + a.length) <;> simp [hp, hq]

theorem any_congr_mem {α : Type} (l : List α) (f g : α → Bool)
    (h : ∀ x ∈ l, f x = g x) : l.any f = l.any g := by
  induction l with
  | nil => rfl
  | cons x rest ih =>
    simp only [List.any_cons, h x (by simp), ih (fun y hy => h y (by simp [hy]))]

theorem searchWB_eq_token (a t : List Char) (h : wordEdged a = true) :
    searchWB a t = occursAsWholeToken a t := by
  unfold searchWB occursAsWholeToken
  exact any_congr_mem _ _ _ (fun i _ => matchAt_eq_tokenAt a t i h)

/-! Claim theorems. -/

/-- C4: a `/bonus` request from a user who already holds a pending riddle
re-displays exactly the stored pending question and its level, and changes
no state at all: the returned state is the input state, so balances,
bonus-claim counters and the riddle state are untouched and no new riddle
is selected. -/
theorem c4_single_active_riddle (shuffle : Int → List Riddle → List Riddle)
    (generated : Int → List Riddle) (st : BotState) (uid userName today : String)
    (dateNum : Int) (r : ActiveRiddle) (hr : findA uid st.riddleState = some r) :
    daily_bonus shuffle generated st uid userName today dateNum =
      (st, .pending r.q r.level (LEVEL_REWARDS r.level)) := by
  unfold daily_bonus
  rw [hr]

/-- Witness for C4 at a concrete state holding a pending riddle. -/
theorem c4_single_active_riddle_witness :
    daily_bonus (fun _ l => l) (fun _ => [])
        ⟨[("u", 70, "U")], [("u", ⟨"2026-10-12", 3⟩)], [("u", ⟨"Скільки ніг у павука?", ["8"], 1⟩)]⟩
        "u" "U" "2026-10-12" 20261012 =
      (⟨[("u", 70, "U")], [("u", ⟨"2026-10-12", 3⟩)], [("u", ⟨"Скільки ніг у павука?", ["8"], 1⟩)]⟩,
       .pending "Скільки ніг у павука?" 1 (LEVEL_REWARDS 1)) :=
  c4_single_active_riddle (fun _ l => l) (fun _ => []) _ "u" "U" "2026-10-12" 20261012
    ⟨"Скільки ніг у павука?", ["8"], 1⟩ (by decide)

/-- C8: the midnight job adds the flat 100-coin bonus to every known balance
exactly once — the new balance list is the pointwise `+100` image of the old
one — and the resulting state does not depend on which chat notifications
succeed; the chats notified are exactly those whose individual send
succeeds, so one failing chat suppresses neither the mutation nor the other
notifications. -/
theorem c8_midnight_bonus_isolated (st : BotState) (activeChats : List Int)
    (sendOk sendOk' : Int → Bool) (h : st.balances ≠ []) :
    (midnight_bonus st activeChats sendOk).1.balances =
        st.balances.map (fun p => (p.1, p.2.1 + 100, p.2.2)) ∧
    (midnight_bonus st activeChats sendOk).1 = (midnight_bonus st activeChats sendOk').1 ∧
    (midnight_bonus st activeChats sendOk).2 = activeChats.filter sendOk := by
  have hne : st.balances.isEmpty = false := by
    cases hb : st.balances with
    | nil => exact absurd hb h
    | cons p rest => rfl
  unfold midnight_bonus
  rw [hne]
  exact ⟨rfl, rfl, rfl⟩

/-- Witness for C8: three balances all gain 100 even though two of the three
active chats fail to receive the notification. -/
theorem c8_midnight_bonus_isolated_witness :
    (midnight_bonus ⟨[("a", 10, "A"), ("b", 20, "B"), ("c", 30, "C")], [], []⟩
        [1, 2, 3] (fun c => c == 3)).1.balances =
      [("a", 110, "A"), ("b", 120, "B"), ("c", 130, "C")] ∧
    (midnight_bonus ⟨[("a", 10, "A"), ("b", 20, "B"), ("c", 30, "C")], [], []⟩
        [1, 2, 3] (fun c => c == 3)).2 = [3] := by
  have h := c8_midnight_bonus_isolated
    ⟨[("a", 10, "A"), ("b", 20, "B"), ("c", 30, "C")], [], []⟩ [1, 2, 3]
    (fun c => c == 3) (fun _ => true) (by decide)
  exact ⟨by rw [h.1]; decide, by rw [h.2.2]; decide⟩

/-- C10 (amended): the level-4 riddle with accepted answers "-273" and
"-273.15" is in the static bank, and the answer check rejects the messages
consisting exactly of those accepted answers (also with surrounding
whitespace), because no word boundary can match between the start of the
text and the leading "-"; so typing the bare accepted answer never solves
this riddle.  (The check is not impossible for every message: see the
counterexample, where a word character immediately before the "-" creates
the boundary.) -/
theorem c10_dash_answer_unmatchable :
    ({ q := "Температура абсолютного нуля за Цельсієм?", a := ["-273", "-273.15"] } : Riddle)
        ∈ RIDDLES_BY_LEVEL 4 ∧
    checkAnswer ["-273", "-273.15"] "-273" = false ∧
    checkAnswer ["-273", "-273.15"] "-273.15" = false ∧
    checkAnswer ["-273", "-273.15"] " -273 " = false := by
  refine ⟨by decide, by decide, by decide, by decide⟩

/-- C10 counterexample to "the answer check fails on every message": the
message "t-273" does match the accepted answer "-273", because the word
character before the "-" provides the leading word boundary. -/
theorem c10_unanswerable_cex :
    checkAnswer ["-273", "-273.15"] "t-273" = true := by decide

/-- C9 (amended): a `/slots` call whose bet argument does not parse as an
integer, or parses below the minimum of 1, is rejected with the respective
user-facing error and the state is returned completely unchanged — the
rejection happens before the balance is even read, so no balance entry is
created and no spin occurs.  (The code configures no maximum bet: see the
counterexample.) -/
theorem c9_invalid_bet_rejected (result : SlotSym × SlotSym × SlotSym) (st : BotState)
    (uid userName s : String) :
    (pyInt s = none →
      slots result st uid userName (some s) = (st, .errNotNumber)) ∧
    (∀ b : Int, pyInt s = some b → b < 1 →
      slots result st uid userName (some s) = (st, .errMinBet)) := by
  constructor
  · intro h
    unfold slots
    simp [h]
  · intro b hb hlt
    unfold slots
    simp [hb, hlt]

/-- Witness for C9: the non-numeric argument "abc" and the below-minimum
argument "0" are both rejected without touching the state. -/
theorem c9_invalid_bet_rejected_witness :
    slots (.cherry, .cherry, .lemon) ⟨[], [], []⟩ "u" "U" (some "abc") =
      (⟨[], [], []⟩, .errNotNumber) ∧
    slots (.cherry, .cherry, .lemon) ⟨[], [], []⟩ "u" "U" (some "0") =
      (⟨[], [], []⟩, .errMinBet) :=
  ⟨(c9_invalid_bet_rejected (.cherry, .cherry, .lemon) ⟨[], [], []⟩ "u" "U" "abc").1
      (by decide),
   (c9_invalid_bet_rejected (.cherry, .cherry, .lemon) ⟨[], [], []⟩ "u" "U" "0").2
      0 (by decide) (by decide)⟩

/-- C9 counterexample: the code enforces no upper bound on numeric bets.  A
bet of 1000000 — far outside any configured range (the only configured bet
constants are the minimum 1 and the default 10) — is accepted whenever the
balance covers it: the spin runs and the state is mutated, instead of the
claimed rejection without state change. -/
theorem c9_bet_range_cex :
    (slots (.cherry, .lemon, .orange) ⟨[("u", 1000000000, "U")], [], []⟩ "u" "U"
        (some "1000000")).2 =
      .played (.cherry, .lemon, .orange) 1000000 0 999000000 ∧
    (slots (.cherry, .lemon, .orange) ⟨[("u", 1000000000, "U")], [], []⟩ "u" "U"
        (some "1000000")).1 ≠ ⟨[("u", 1000000000, "U")], [], []⟩ := by
  refine ⟨by decide, by decide⟩

/-- C3: the payout rules of `calculate_winnings` — an exact triple pays the
bet times the table multiplier for its symbol (with the diamond, the
highest-value symbol, paying the largest multiple), any other outcome with
two equal symbols returns exactly the bet, and an outcome with three
distinct symbols pays zero — and a spin through `slots_core` changes the
balance by exactly `winnings − bet` whenever the balance covers the bet;
concretely, a fresh user with the starting balance 100 betting 10 who draws
three diamonds (multiplier 100) ends with balance 1090. -/
theorem c3_slots_payout_and_balance (r : SlotSym × SlotSym × SlotSym) (b : Int)
    (_hb : 1 ≤ b) :
    (∀ s : SlotSym, calculate_winnings (s, s, s) b = b * payoutMult s) ∧
    (¬(r.1 = r.2.1 ∧ r.2.1 = r.2.2) → (r.1 = r.2.1 ∨ r.2.1 = r.2.2 ∨ r.1 = r.2.2) →
      calculate_winnings r b = b) ∧
    ((¬r.1 = r.2.1 ∧ ¬r.2.1 = r.2.2 ∧ ¬r.1 = r.2.2) → calculate_winnings r b = 0) ∧
    (∀ s : SlotSym, payoutMult s ≤ payoutMult .diamond) ∧
    (∀ (st : BotState) (uid userName : String), b ≤ getBalanceVal st uid →
      getBalanceVal (slots_core r st uid userName b).1 uid =
        getBalanceVal st uid + (calculate_winnings r b - b)) ∧
    slots (.diamond, .diamond, .diamond) ⟨[], [], []⟩ "u" "U" (some "10") =
      (⟨[("u", 1090, "U")], [], []⟩, .played (.diamond, .diamond, .diamond) 10 1000 1090) := by
  have hnone : ∀ (x y z : SlotSym), ¬(x = y ∧ y = z) → SLOT_PAYOUTS (x, y, z) = none := by
    decide
  refine ⟨?_, ?_, ?_, by decide, ?_, by decide⟩
  · intro s
    cases s <;> rfl
  · intro hnu hpair
    obtain ⟨x, y, z⟩ := r
    unfold calculate_winnings
    rw [hnone x y z hnu]
    simp only at hpair
    simp [hpair]
  · intro hdist
    obtain ⟨x, y, z⟩ := r
    obtain ⟨h1, h2, h3⟩ := hdist
    unfold calculate_winnings
    rw [hnone x y z (fun hc => h1 hc.1)]
    simp only at h1 h2 h3
    simp [h1, h2, h3]
  · intro st uid userName hbal
    unfold slots_core get_balance
    cases hf : findA uid st.balances with
    | none =>
      have hbal' : getBalanceVal st uid = STARTING_BALANCE := by
        unfold getBalanceVal
        rw [hf]
      rw [hbal'] at hbal ⊢
      simp only [if_neg (not_lt.mpr hbal)]
      unfold update_balance getBalanceVal
      simp [findA_upsertA_self, hf]
    | some e =>
      have hbal' : getBalanceVal st uid = e.1 := by
        unfold getBalanceVal
        rw [hf]
      rw [hbal'] at hbal ⊢
      simp only [if_neg (not_lt.mpr hbal)]
      unfold update_balance getBalanceVal
      simp [findA_upsertA_self, hf]

/-- Witness for C3: a concrete two-cherries spin at bet 10 breaks even, and
the balance-delta equation holds at that input. -/
theorem c3_slots_payout_and_balance_witness :
    calculate_winnings ((.cherry, .cherry, .lemon) : SlotSym × SlotSym × SlotSym) 10 = 10 ∧
    getBalanceVal (slots_core (.cherry, .cherry, .lemon) ⟨[], [], []⟩ "u" "U" 10).1 "u" =
      getBalanceVal (⟨[], [], []⟩ : BotState) "u" +
        (calculate_winnings (.cherry, .cherry, .lemon) 10 - 10) := by
  have h := c3_slots_payout_and_balance (.cherry, .cherry, .lemon) 10 (by decide)
  refine ⟨h.2.1 (by decide) (by decide), h.2.2.2.2.1 ⟨[], [], []⟩ "u" "U" (by decide)⟩

/-! Branch characterisations of `daily_bonus` and `check_riddle_answer`,
shared by the claim theorems below. -/

theorem daily_bonus_newday (shuffle : Int → List Riddle → List Riddle)
    (generated : Int → List Riddle) (st : BotState) (uid userName today : String)
    (dateNum : Int) (hr : findA uid st.riddleState = none)
    (hd : ((findA uid st.bonusClaims).getD ⟨"", 0⟩).date ≠ today) :
    daily_bonus shuffle generated st uid userName today dateNum =
      (BotState.mk (update_balance st uid 50 userName).balances
        (upsertA uid ⟨today, 1⟩ st.bonusClaims) st.riddleState,
       .free 50 (getBalanceVal (update_balance st uid 50 userName) uid)) := by
  unfold daily_bonus
  rw [hr]
  simp only [if_pos hd]
  rw [update_balance_bonusClaims st uid 50 userName, update_balance_riddleState st uid 50 userName]

theorem daily_bonus_sameday_exhausted (shuffle : Int → List Riddle → List Riddle)
    (generated : Int → List Riddle) (st : BotState) (uid userName today : String)
    (dateNum : Int) (n : Nat) (hr : findA uid st.riddleState = none)
    (hb : (findA uid st.bonusClaims).getD ⟨"", 0⟩ = ⟨today, n⟩) (hlt : 5 < levelFor n) :
    daily_bonus shuffle generated st uid userName today dateNum = (st, .exhausted) := by
  unfold daily_bonus
  rw [hr]
  simp only [hb]
  rw [if_neg (fun h => h rfl), if_pos hlt]

theorem daily_bonus_sameday_riddle (shuffle : Int → List Riddle → List Riddle)
    (generated : Int → List Riddle) (st : BotState) (uid userName today : String)
    (dateNum : Int) (n : Nat) (hr : findA uid st.riddleState = none)
    (hb : (findA uid st.bonusClaims).getD ⟨"", 0⟩ = ⟨today, n⟩) (hnot : ¬5 < levelFor n) :
    daily_bonus shuffle generated st uid userName today dateNum =
      ({ st with riddleState := (upsertA uid (ActiveRiddle.mk
          (select_riddle shuffle generated (levelFor n) n dateNum).q
          (select_riddle shuffle generated (levelFor n) n dateNum).a
          (levelFor n)) st.riddleState) },
       .riddleIssued (select_riddle shuffle generated (levelFor n) n dateNum).q
         (levelFor n) n (LEVEL_REWARDS (levelFor n))) := by
  unfold daily_bonus
  rw [hr]
  simp only [hb]
  rw [if_neg (fun h => h rfl), if_neg hnot]

theorem check_riddle_answer_no_riddle (st : BotState) (uid userName today msgText : String)
    (hr : findA uid st.riddleState = none) :
    check_riddle_answer st uid userName today msgText = (st, none) := by
  unfold check_riddle_answer
  rw [hr]

theorem check_riddle_answer_wrong (st : BotState) (uid userName today msgText : String)
    (r : ActiveRiddle) (hr : findA uid st.riddleState = some r)
    (hm : checkAnswer r.a msgText = false) :
    check_riddle_answer st uid userName today msgText = (st, none) := by
  unfold check_riddle_answer
  rw [hr]
  simp only [hm, Bool.false_eq_true, if_false]

theorem check_riddle_answer_correct (st : BotState) (uid userName today msgText : String)
    (r : ActiveRiddle) (hr : findA uid st.riddleState = some r)
    (hm : checkAnswer r.a msgText = true) :
    check_riddle_answer st uid userName today msgText =
      (let st1 := update_balance st uid (LEVEL_REWARDS r.level) userName
       let bd := (findA uid st1.bonusClaims).getD ⟨today, 0⟩
       let bd' : BonusRec := if bd.date = today then ⟨bd.date, bd.count + 1⟩ else ⟨today, 1⟩
       ({ st1 with bonusClaims := upsertA uid bd' st1.bonusClaims,
                    riddleState := eraseA uid st1.riddleState },
        some { reward := LEVEL_REWARDS r.level, newBalance := getBalanceVal st1 uid,
               nextLevel := levelFor bd'.count,
               allDone := decide (5 < levelFor bd'.count) })) := by
  unfold check_riddle_answer
  rw [hr]
  simp only [hm, if_true]

/-- C1 (amended): for a user with a same-day bonus record of count `n` and
no active riddle, `/bonus` issues a riddle whose level is
`(n − 1) // 5 + 1` — equal to `min(5, (n − 1) // 5 + 1)`, i.e. the claimed
formula with `attempts_today // attemptsPerLevel` replaced by
`(attempts_today − 1) // attemptsPerLevel` — whenever `n ≤ 25`, and answers
"exhausted for today" with no riddle issued and the state unchanged (the
user stays in NoActiveRiddle) whenever `n ≥ 26`. -/
theorem c1_level_from_attempts (shuffle : Int → List Riddle → List Riddle)
    (generated : Int → List Riddle) (st : BotState) (uid userName today : String)
    (dateNum : Int) (n : Nat) (hr : findA uid st.riddleState = none)
    (hb : findA uid st.bonusClaims = some ⟨today, n⟩) (_h1 : 1 ≤ n) :
    (n ≤ 25 →
      findA uid (daily_bonus shuffle generated st uid userName today dateNum).1.riddleState =
        some (ActiveRiddle.mk (select_riddle shuffle generated (levelFor n) n dateNum).q
          (select_riddle shuffle generated (levelFor n) n dateNum).a (levelFor n)) ∧
      levelFor n = min 5 (((n : Int) - 1).fdiv 5 + 1)) ∧
    (26 ≤ n →
      daily_bonus shuffle generated st uid userName today dateNum = (st, .exhausted)) := by
  constructor
  · intro hle
    have hnot : ¬5 < levelFor n := not_lt.mpr (levelFor_le_five hle)
    rw [daily_bonus_sameday_riddle shuffle generated st uid userName today dateNum n hr (by rw [hb]; rfl) hnot]
    constructor
    · exact findA_upsertA_self _ _ _
    · exact (min_eq_right (levelFor_le_five hle)).symm
  · intro hge
    exact daily_bonus_sameday_exhausted shuffle generated st uid userName today dateNum n
      hr (by rw [hb]; rfl) (levelFor_gt_five hge)

/-- Witness for C1 (amended): a same-day record with count 7 gets a level-2
riddle, and a count of 30 is answered "exhausted" with the state unchanged. -/
theorem c1_level_from_attempts_witness :
    findA "u" (daily_bonus (fun _ l => l) (fun _ => [])
        ⟨[], [("u", ⟨"2026-10-12", 7⟩)], []⟩ "u" "U" "2026-10-12" 20261012).1.riddleState =
      some (ActiveRiddle.mk
        (select_riddle (fun _ l => l) (fun _ => []) (levelFor 7) 7 20261012).q
        (select_riddle (fun _ l => l) (fun _ => []) (levelFor 7) 7 20261012).a
        (levelFor 7)) ∧
    daily_bonus (fun _ l => l) (fun _ => [])
        ⟨[], [("u", ⟨"2026-10-12", 30⟩)], []⟩ "u" "U" "2026-10-12" 20261012 =
      (⟨[], [("u", ⟨"2026-10-12", 30⟩)], []⟩, .exhausted) :=
  ⟨((c1_level_from_attempts (fun _ l => l) (fun _ => [])
      ⟨[], [("u", ⟨"2026-10-12", 7⟩)], []⟩ "u" "U" "2026-10-12" 20261012 7
      (by decide) (by decide) (by decide)).1 (by decide)).1,
   (c1_level_from_attempts (fun _ l => l) (fun _ => [])
      ⟨[], [("u", ⟨"2026-10-12", 30⟩)], []⟩ "u" "U" "2026-10-12" 20261012 30
      (by decide) (by decide) (by decide)).2 (by decide)⟩

/-- C1 counterexample: with a same-day count of 5 the code issues a riddle
of level `(5 − 1) // 5 + 1 = 1`, whereas the claimed formula
`min(5, attempts_today // attemptsPerLevel + 1)` gives
`min(5, 5 // 5 + 1) = 2`. -/
theorem c1_level_formula_cex :
    (findA "u" (daily_bonus (fun _ l => l) (fun _ => [])
        ⟨[], [("u", ⟨"2026-10-12", 5⟩)], []⟩ "u" "U" "2026-10-12" 20261012).1.riddleState).map
      ActiveRiddle.level = some 1 ∧
    min 5 (((5 : Nat) : Int).fdiv 5 + 1) = 2 := by
  refine ⟨by decide, by decide⟩

/-- C7: the riddle issued by a same-day repeat claim is a function of the
calendar date, the level and the attempts count alone — for every
pseudorandom shuffle function and generated pool, two different users with
same-day records carrying the same count, neither holding an active riddle,
end up with identical active riddles when each requests `/bonus` (the second
doing so after the first), because the selection shuffles the level's pool
with the date+level seed and indexes it by `(count − 1) mod 5` with no
dependence on the user. -/
theorem c7_riddle_user_independent (shuffle : Int → List Riddle → List Riddle)
    (generated : Int → List Riddle) (st : BotState) (u1 u2 nm1 nm2 today : String)
    (dateNum : Int) (n : Nat) (hne : u1 ≠ u2)
    (h1 : findA u1 st.riddleState = none) (h2 : findA u2 st.riddleState = none)
    (b1 : findA u1 st.bonusClaims = some ⟨today, n⟩)
    (b2 : findA u2 st.bonusClaims = some ⟨today, n⟩) :
    findA u1 ((daily_bonus shuffle generated
        (daily_bonus shuffle generated st u1 nm1 today dateNum).1
        u2 nm2 today dateNum).1).riddleState =
    findA u2 ((daily_bonus shuffle generated
        (daily_bonus shuffle generated st u1 nm1 today dateNum).1
        u2 nm2 today dateNum).1).riddleState := by
  by_cases hlt : 5 < levelFor n
  · rw [daily_bonus_sameday_exhausted shuffle generated st u1 nm1 today dateNum n h1 (by rw [b1]; rfl) hlt]
    rw [daily_bonus_sameday_exhausted shuffle generated st u2 nm2 today dateNum n h2 (by rw [b2]; rfl) hlt]
    rw [h1, h2]
  · rw [daily_bonus_sameday_riddle shuffle generated st u1 nm1 today dateNum n h1 (by rw [b1]; rfl) hlt]
    have h2' : findA u2 ({ st with riddleState := (upsertA u1 (ActiveRiddle.mk
        (select_riddle shuffle generated (levelFor n) n dateNum).q
        (select_riddle shuffle generated (levelFor n) n dateNum).a
        (levelFor n)) st.riddleState) } : BotState).riddleState = none := by
      simpa [findA_upsertA_ne _ _ _ _ hne] using h2
    have b2' : findA u2 ({ st with riddleState := (upsertA u1 (ActiveRiddle.mk
        (select_riddle shuffle generated (levelFor n) n dateNum).q
        (select_riddle shuffle generated (levelFor n) n dateNum).a
        (levelFor n)) st.riddleState) } : BotState).bonusClaims = some ⟨today, n⟩ := b2
    rw [daily_bonus_sameday_riddle shuffle generated _ u2 nm2 today dateNum n h2' (by rw [b2']; rfl) hlt]
    simp only [findA_upsertA_self, findA_upsertA_ne _ _ _ _ (fun h => hne h.symm),
      findA_upsertA_self]

/-- Witness for C7: two concrete users with identical same-day records (count
3) receive the same active riddle on a given date. -/
theorem c7_riddle_user_independent_witness :
    findA "u1" ((daily_bonus (fun _ l => l) (fun _ => [])
        (daily_bonus (fun _ l => l) (fun _ => [])
          ⟨[], [("u1", ⟨"2026-10-12", 3⟩), ("u2", ⟨"2026-10-12", 3⟩)], []⟩
          "u1" "A" "2026-10-12" 20261012).1
        "u2" "B" "2026-10-12" 20261012).1).riddleState =
    findA "u2" ((daily_bonus (fun _ l => l) (fun _ => [])
        (daily_bonus (fun _ l => l) (fun _ => [])
          ⟨[], [("u1", ⟨"2026-10-12", 3⟩), ("u2", ⟨"2026-10-12", 3⟩)], []⟩
          "u1" "A" "2026-10-12" 20261012).1
        "u2" "B" "2026-10-12" 20261012).1).riddleState :=
  c7_riddle_user_independent (fun _ l => l) (fun _ => [])
    ⟨[], [("u1", ⟨"2026-10-12", 3⟩), ("u2", ⟨"2026-10-12", 3⟩)], []⟩
    "u1" "u2" "A" "B" "2026-10-12" 20261012 3 (by decide)
    (by decide) (by decide) (by decide) (by decide)

/-- The bonus record written by a correct answer always carries today's date
and increments the attempts-today counter (a stale or missing record counts
as zero attempts today). -/
theorem bumpRec_eq (st : BotState) (uid today : String) :
    (if ((findA uid st.bonusClaims).getD ⟨today, 0⟩).date = today
      then (⟨((findA uid st.bonusClaims).getD ⟨today, 0⟩).date,
             ((findA uid st.bonusClaims).getD ⟨today, 0⟩).count + 1⟩ : BonusRec)
      else ⟨today, 1⟩) =
    ⟨today, attemptsToday st uid today + 1⟩ := by
  unfold attemptsToday
  cases hf : findA uid st.bonusClaims with
  | none => simp
  | some b =>
    by_cases hd : b.date = today <;> simp [hd]

/-- C5: when a user holding an active riddle of level L sends a matching
message, the level-L reward is credited to their balance, the attempts-today
counter is incremented by one, the active riddle is cleared (back to
NoActiveRiddle), and the reply reports the reward, the new balance and the
next level `(newCount − 1) // 5 + 1` the user will face; when the message
does not match, the state is returned unchanged and the result is `none`,
i.e. the message is not consumed and passes through to the other message
handling. -/
theorem c5_answer_transition (st : BotState) (uid userName today msg : String)
    (r : ActiveRiddle) (hr : findA uid st.riddleState = some r)
    (hnd : st.riddleState.Pairwise (fun p p' => p.1 ≠ p'.1)) :
    (checkAnswer r.a msg = true →
      getBalanceVal (check_riddle_answer st uid userName today msg).1 uid =
        getBalanceVal st uid + LEVEL_REWARDS r.level ∧
      attemptsToday (check_riddle_answer st uid userName today msg).1 uid today =
        attemptsToday st uid today + 1 ∧
      findA uid (check_riddle_answer st uid userName today msg).1.riddleState = none ∧
      (check_riddle_answer st uid userName today msg).2 =
        some (AnswerReply.mk (LEVEL_REWARDS r.level)
          (getBalanceVal st uid + LEVEL_REWARDS r.level)
          (levelFor (attemptsToday st uid today + 1))
          (decide (5 < levelFor (attemptsToday st uid today + 1))))) ∧
    (checkAnswer r.a msg = false →
      check_riddle_answer st uid userName today msg = (st, none)) := by
  constructor
  · intro hm
    rw [check_riddle_answer_correct st uid userName today msg r hr hm]
    simp only []
    have hclaims : (update_balance st uid (LEVEL_REWARDS r.level) userName).bonusClaims =
        st.bonusClaims := update_balance_bonusClaims st uid _ userName
    have hrid : (update_balance st uid (LEVEL_REWARDS r.level) userName).riddleState =
        st.riddleState := update_balance_riddleState st uid _ userName
    have hbal : getBalanceVal (update_balance st uid (LEVEL_REWARDS r.level) userName) uid =
        getBalanceVal st uid + LEVEL_REWARDS r.level := getBalanceVal_update_self st uid _ userName
    rw [hclaims, hrid, bumpRec_eq st uid today]
    set A := attemptsToday st uid today with hA
    refine ⟨?_, ?_, ?_, ?_⟩
    · unfold getBalanceVal at hbal ⊢
      exact hbal
    · unfold attemptsToday
      simp [findA_upsertA_self]
    · simp only [findA_eraseA_self uid st.riddleState hnd]
    · simp [hbal]
  · intro hm
    exact check_riddle_answer_wrong st uid userName today msg r hr hm

/-- Witness for C5: solving the level-1 riddle "6 * 7" with the message "42"
credits 20 coins (200 → 220), bumps the same-day count from 2 to 3, clears
the riddle, and reports next level 1; a wrong message changes nothing. -/
theorem c5_answer_transition_witness :
    getBalanceVal (check_riddle_answer
        ⟨[("u", 200, "U")], [("u", ⟨"2026-10-12", 2⟩)], [("u", ⟨"Скільки буде 6 * 7?", ["42"], 1⟩)]⟩
        "u" "U" "2026-10-12" "42").1 "u" = 220 ∧
    attemptsToday (check_riddle_answer
        ⟨[("u", 200, "U")], [("u", ⟨"2026-10-12", 2⟩)], [("u", ⟨"Скільки буде 6 * 7?", ["42"], 1⟩)]⟩
        "u" "U" "2026-10-12" "42").1 "u" "2026-10-12" = 3 ∧
    check_riddle_answer
        ⟨[("u", 200, "U")], [("u", ⟨"2026-10-12", 2⟩)], [("u", ⟨"Скільки буде 6 * 7?", ["42"], 1⟩)]⟩
        "u" "U" "2026-10-12" "wrong guess" =
      (⟨[("u", 200, "U")], [("u", ⟨"2026-10-12", 2⟩)], [("u", ⟨"Скільки буде 6 * 7?", ["42"], 1⟩)]⟩,
       none) := by
  have h := c5_answer_transition
    ⟨[("u", 200, "U")], [("u", ⟨"2026-10-12", 2⟩)], [("u", ⟨"Скільки буде 6 * 7?", ["42"], 1⟩)]⟩
    "u" "U" "2026-10-12" "42" ⟨"Скільки буде 6 * 7?", ["42"], 1⟩ (by decide) (by decide)
  have h2 := c5_answer_transition
    ⟨[("u", 200, "U")], [("u", ⟨"2026-10-12", 2⟩)], [("u", ⟨"Скільки буде 6 * 7?", ["42"], 1⟩)]⟩
    "u" "U" "2026-10-12" "wrong guess" ⟨"Скільки буде 6 * 7?", ["42"], 1⟩ (by decide) (by decide)
  obtain ⟨hc, -⟩ := h
  have hres := hc (by decide)
  refine ⟨?_, ?_, h2.2 (by decide)⟩
  · rw [hres.1]
    decide
  · rw [hres.2.1]
    decide

/-- The pending-riddle branch of `daily_bonus`: with an active riddle the
state is returned unchanged. -/
theorem daily_bonus_pending (shuffle : Int → List Riddle → List Riddle)
    (generated : Int → List Riddle) (st : BotState) (uid userName today : String)
    (dateNum : Int) (r : ActiveRiddle) (hr : findA uid st.riddleState = some r) :
    daily_bonus shuffle generated st uid userName today dateNum =
      (st, .pending r.q r.level (LEVEL_REWARDS r.level)) := by
  unfold daily_bonus
  rw [hr]

/-- C2 (amended): for accepted answers whose lower-cased, stripped text
begins and ends with a word character, the answer check succeeds exactly
when some accepted answer occurs in the lower-cased, stripped message as a
whole delimited token; matching is case-insensitive, and with accepted
answer "1" the message "11" does not match while "the answer is 1" does.
(Answers with a non-word edge character, such as "-273", break the
equivalence: see the counterexample.) -/
theorem c2_whole_token_equiv (answers : List String) (msg : String)
    (h : ∀ a ∈ answers, wordEdged (cleanAns a) = true) :
    checkAnswer answers msg =
      answers.any (fun a => occursAsWholeToken (cleanAns a) (cleanAns msg)) ∧
    checkAnswer ["1"] "11" = false ∧
    checkAnswer ["1"] "the answer is 1" = true ∧
    checkAnswer ["Земля"] " ЗЕМЛЯ! " = true := by
  refine ⟨?_, by decide, by decide, by decide⟩
  unfold checkAnswer
  exact any_congr_mem _ _ _ (fun a ha => searchWB_eq_token _ _ (h a ha))

/-- Witness for C2 (amended) at the accepted answer "1" and the message
"the answer is 1". -/
theorem c2_whole_token_equiv_witness :
    (∀ a ∈ ["1"], wordEdged (cleanAns a) = true) ∧
    checkAnswer ["1"] "the answer is 1" =
      (["1"].any (fun a => occursAsWholeToken (cleanAns a) (cleanAns "the answer is 1"))) :=
  ⟨by decide, (c2_whole_token_equiv ["1"] "the answer is 1" (by decide)).1⟩

/-- C2 counterexample: for the bank's level-4 riddle with accepted answer
"-273", the claimed equivalence fails at the message "-273": the answer
occurs there as a whole delimited token (it is the entire message), yet the
answer check returns false — the word-boundary pattern cannot match between
the start of the text and the leading "-". -/
theorem c2_token_match_cex :
    ({ q := "Температура абсолютного нуля за Цельсієм?", a := ["-273", "-273.15"] } : Riddle)
        ∈ RIDDLES_BY_LEVEL 4 ∧
    occursAsWholeToken (cleanAns "-273") (cleanAns "-273") = true ∧
    checkAnswer ["-273", "-273.15"] "-273" = false ∧
    checkAnswer ["-273", "-273.15"] "-273" ≠
      (["-273", "-273.15"].any (fun a => occursAsWholeToken (cleanAns a) (cleanAns "-273"))) := by
  refine ⟨by decide, by decide, by decide, by decide⟩

/-! `levelOf` helpers. -/

theorem levelOf_of_find_none (st : BotState) (uid today : String)
    (h : findA uid st.bonusClaims = none) : levelOf st uid today = 1 := by
  unfold levelOf
  rw [h]

theorem levelOf_of_find_some (st : BotState) (uid today : String) (b : BonusRec)
    (h : findA uid st.bonusClaims = some b) :
    levelOf st uid today = if b.date = today then levelFor b.count else 1 := by
  unfold levelOf
  rw [h]

theorem levelOf_congr (st st' : BotState) (h : st'.bonusClaims = st.bonusClaims)
    (uid today : String) : levelOf st' uid today = levelOf st uid today := by
  unfold levelOf
  rw [h]

theorem levelOf_ge_one_of_today (st : BotState) (uid today : String)
    (h : attemptsToday st uid today = 0) : levelOf st uid today ≤ 1 := by
  unfold attemptsToday at h
  cases hf : findA uid st.bonusClaims with
  | none => rw [levelOf_of_find_none st uid today hf]
  | some b =>
    rw [levelOf_of_find_some st uid today b hf]
    rw [hf] at h
    by_cases hbd : b.date = today
    · have hc : b.count = 0 := by simpa [hbd] using h
      simp [hbd, hc, levelFor_zero]
    · simp [hbd]

/-- The correct-answer branch of `check_riddle_answer`, with the resulting
state written out: balance updated, the same-day count bumped, the riddle
erased. -/
theorem check_riddle_answer_correct_state (st : BotState)
    (uid userName today msgText : String) (r : ActiveRiddle)
    (hr : findA uid st.riddleState = some r) (hm : checkAnswer r.a msgText = true) :
    check_riddle_answer st uid userName today msgText =
      (BotState.mk (update_balance st uid (LEVEL_REWARDS r.level) userName).balances
        (upsertA uid ⟨today, attemptsToday st uid today + 1⟩ st.bonusClaims)
        (eraseA uid st.riddleState),
       some (AnswerReply.mk (LEVEL_REWARDS r.level)
         (getBalanceVal (update_balance st uid (LEVEL_REWARDS r.level) userName) uid)
         (levelFor (attemptsToday st uid today + 1))
         (decide (5 < levelFor (attemptsToday st uid today + 1))))) := by
  rw [check_riddle_answer_correct st uid userName today msgText r hr hm]
  simp only []
  rw [update_balance_bonusClaims st uid _ userName, update_balance_riddleState st uid _ userName,
    bumpRec_eq st uid today]

/-- C6 (amended): within one calendar day the riddle difficulty level a user
faces never decreases under the bonus-claim and riddle-answer operations —
for any acting user, any message and any shuffle — and the level resets to 1
at the next day's first bonus claim: a claim made while the stored record is
stale (different date) and no riddle is pending writes the record
`{date: today, count: 1}`, i.e. level 1.  (The explicit `/resetbonus`
command is the one operation that does lower the level mid-day: see the
counterexample.) -/
theorem c6_level_monotone (shuffle : Int → List Riddle → List Riddle)
    (generated : Int → List Riddle) (st : BotState) (actor userName today msg : String)
    (dateNum : Int) (uid : String) :
    levelOf st uid today ≤
      levelOf (daily_bonus shuffle generated st actor userName today dateNum).1 uid today ∧
    levelOf st uid today ≤
      levelOf (check_riddle_answer st actor userName today msg).1 uid today ∧
    (findA actor st.riddleState = none →
      ((findA actor st.bonusClaims).getD ⟨"", 0⟩).date ≠ today →
      findA actor (daily_bonus shuffle generated st actor userName today dateNum).1.bonusClaims =
        some ⟨today, 1⟩ ∧
      levelOf (daily_bonus shuffle generated st actor userName today dateNum).1 actor today = 1) := by
  refine ⟨?_, ?_, ?_⟩
  · -- daily_bonus never lowers any user's level
    cases hra : findA actor st.riddleState with
    | some r =>
      rw [daily_bonus_pending shuffle generated st actor userName today dateNum r hra]
    | none =>
      by_cases hd : ((findA actor st.bonusClaims).getD ⟨"", 0⟩).date = today
      · have hb : (findA actor st.bonusClaims).getD ⟨"", 0⟩ =
            ⟨today, ((findA actor st.bonusClaims).getD ⟨"", 0⟩).count⟩ := by
          cases hgd : (findA actor st.bonusClaims).getD ⟨"", 0⟩ with
          | mk d c =>
            rw [hgd] at hd
            simp only at hd
            simp [hd]
        by_cases hlt : 5 < levelFor ((findA actor st.bonusClaims).getD ⟨"", 0⟩).count
        · rw [daily_bonus_sameday_exhausted shuffle generated st actor userName today
            dateNum _ hra hb hlt]
        · rw [daily_bonus_sameday_riddle shuffle generated st actor userName today
            dateNum _ hra hb hlt]
          exact le_of_eq (levelOf_congr st _ rfl uid today).symm
      · rw [daily_bonus_newday shuffle generated st actor userName today dateNum hra hd]
        by_cases huid : actor = uid
        · subst huid
          have hafter : levelOf (BotState.mk (update_balance st actor 50 userName).balances
              (upsertA actor ⟨today, 1⟩ st.bonusClaims) st.riddleState) actor today = 1 := by
            rw [levelOf_of_find_some _ actor today ⟨today, 1⟩ (findA_upsertA_self _ _ _)]
            simp [levelFor_one]
          rw [hafter]
          apply levelOf_ge_one_of_today
          unfold attemptsToday
          cases hf : findA actor st.bonusClaims with
          | none => rfl
          | some b =>
            rw [hf] at hd
            simp only [Option.getD_some] at hd
            simp [hd]
        · have hsame : findA uid (BotState.mk (update_balance st actor 50 userName).balances
              (upsertA actor ⟨today, 1⟩ st.bonusClaims) st.riddleState).bonusClaims =
              findA uid st.bonusClaims := findA_upsertA_ne _ _ _ _ huid
          unfold levelOf
          rw [hsame]
  · -- check_riddle_answer never lowers any user's level
    cases hra : findA actor st.riddleState with
    | none =>
      rw [check_riddle_answer_no_riddle st actor userName today msg hra]
    | some r =>
      cases hm : checkAnswer r.a msg with
      | false =>
        rw [check_riddle_answer_wrong st actor userName today msg r hra hm]
      | true =>
        rw [check_riddle_answer_correct_state st actor userName today msg r hra hm]
        by_cases huid : actor = uid
        · subst huid
          have hafter : levelOf (BotState.mk
              (update_balance st actor (LEVEL_REWARDS r.level) userName).balances
              (upsertA actor ⟨today, attemptsToday st actor today + 1⟩ st.bonusClaims)
              (eraseA actor st.riddleState)) actor today =
              levelFor (attemptsToday st actor today + 1) := by
            rw [levelOf_of_find_some _ actor today _ (findA_upsertA_self _ _ _)]
            simp
          rw [hafter]
          unfold attemptsToday
          cases hf : findA actor st.bonusClaims with
          | none =>
            rw [levelOf_of_find_none st actor today hf]
            rw [levelFor_one]
          | some b =>
            by_cases hbd : b.date = today
            · rw [levelOf_of_find_some st actor today b hf]
              simp only [hbd, if_true]
              exact levelFor_mono (by omega)
            · rw [levelOf_of_find_some st actor today b hf]
              simp only [hbd, if_false]
              simp [hbd, levelFor_one]
        · have hsame : findA uid (BotState.mk
              (update_balance st actor (LEVEL_REWARDS r.level) userName).balances
              (upsertA actor ⟨today, attemptsToday st actor today + 1⟩ st.bonusClaims)
              (eraseA actor st.riddleState)).bonusClaims =
              findA uid st.bonusClaims := findA_upsertA_ne _ _ _ _ huid
          unfold levelOf
          rw [hsame]
  · -- the next day's first claim resets the record to count 1, level 1
    intro hra hd
    rw [daily_bonus_newday shuffle generated st actor userName today dateNum hra hd]
    refine ⟨findA_upsertA_self _ _ _, ?_⟩
    rw [levelOf_of_find_some _ actor today ⟨today, 1⟩ (findA_upsertA_self _ _ _)]
    simp [levelFor_one]

/-- Witness for C6 at a stale record: claiming on a new day keeps the level
at 1 ≤ 1 and rewrites the record to `{date: today, count: 1}`. -/
theorem c6_level_monotone_witness :
    levelOf (⟨[], [("u", ⟨"2026-10-11", 4⟩)], []⟩ : BotState) "u" "2026-10-12" ≤
      levelOf (daily_bonus (fun _ l => l) (fun _ => [])
        ⟨[], [("u", ⟨"2026-10-11", 4⟩)], []⟩ "u" "U" "2026-10-12" 20261012).1 "u" "2026-10-12" ∧
    findA "u" (daily_bonus (fun _ l => l) (fun _ => [])
        ⟨[], [("u", ⟨"2026-10-11", 4⟩)], []⟩ "u" "U" "2026-10-12" 20261012).1.bonusClaims =
      some ⟨"2026-10-12", 1⟩ := by
  have h := c6_level_monotone (fun _ l => l) (fun _ => [])
    ⟨[], [("u", ⟨"2026-10-11", 4⟩)], []⟩ "u" "U" "2026-10-12" "hello" 20261012 "u"
  exact ⟨h.1, (h.2.2 (by decide) (by decide)).1⟩

/-- C6 counterexample to "monotonically non-decreasing across all operations
within a single calendar day": the `/resetbonus` handler is an operation the
user can invoke at any time, and it drops a same-day level of 3 (count 11)
back to level 1 within the same day. -/
theorem c6_monotone_cex :
    levelOf (⟨[], [("u", ⟨"2026-10-12", 11⟩)], []⟩ : BotState) "u" "2026-10-12" = 3 ∧
    levelOf (reset_bonus ⟨[], [("u", ⟨"2026-10-12", 11⟩)], []⟩ "u") "u" "2026-10-12" = 1 ∧
    ¬(3 : Int) ≤ 1 := by
  refine ⟨by decide, by decide, by decide⟩
